import Mathlib

/-!
Shallow embedding of the netpy repository's Python sources
(`Scripts/odoo_module_sample.py`, `Scripts/sample.py`,
`Scripts/sample_test.py`) and proofs about them.

Python dictionaries and dynamic objects are modelled as association
lists with string keys; Python values crossing the bridge are modelled
by the sum type `PropValue`.  Functions that in Python may raise
`AttributeError` return `Option`.
-/

/-- Values held by bridged object properties: the declared bridge types
are string, integer, boolean and timestamp (a timestamp is modelled as a
tick count). -/
inductive PropValue : Type where
  | str (s : String)
  | int (n : Int)
  | bool (b : Bool)
  | time (t : Nat)
deriving DecidableEq, Repr

/-! ## Filter engine: `get_partner_domain_filter` -/

/-- Embedding of `get_partner_domain_filter(criteria)` from
`Scripts/odoo_module_sample.py`.  The Python dict `criteria` is an
association list; `'k' in criteria` / `criteria['k']` is `List.lookup`.
The function checks the keys in the fixed order `is_company`, `country`,
`name`, appending one clause per present key; `country` maps to field
`country_id` and `name` uses operator `ilike`. -/
def get_partner_domain_filter {α : Type} (criteria : List (String × α)) :
    List (String × String × α) :=
  let domain : List (String × String × α) := []
  let domain := match criteria.lookup "is_company" with
    | some v => domain ++ [("is_company", "=", v)]
    | none => domain
  let domain := match criteria.lookup "country" with
    | some v => domain ++ [("country_id", "=", v)]
    | none => domain
  let domain := match criteria.lookup "name" with
    | some v => domain ++ [("name", "ilike", v)]
    | none => domain
  domain

/-! ## Workflow: `partner_approval_workflow` -/

/-- Result dictionary of `partner_approval_workflow`: keys
`partner_id`, `action`, `new_state`, `success`. -/
structure WorkflowResult (π : Type) : Type where
  partner_id : π
  action : String
  new_state : Option String
  success : Bool
deriving DecidableEq, Repr

/-- Embedding of `partner_approval_workflow(env, partner_id, action)`
from `Scripts/odoo_module_sample.py`: a lookup of `action` in the local
three-entry `transitions` dict; `success` is `new_state is not None`.
The Python function never reads `env` or `partner_id` except to copy
`partner_id` into the result, so both stay polymorphic. -/
def partner_approval_workflow {ε π : Type} (env : ε) (partner_id : π)
    (action : String) : WorkflowResult π :=
  let transitions : List (String × String) :=
    [("approve", "approved"), ("reject", "rejected"), ("review", "under_review")]
  let new_state := transitions.lookup action
  { partner_id := partner_id, action := action, new_state := new_state,
    success := new_state.isSome }

/-! ## Computed fields: `create_computed_fields` -/

/-- Record type with the attributes the computed-field lambdas and the
dependency lists of `create_computed_fields` mention: `record.Id`,
`record.Name`, `record.Street`, `record.City`. -/
structure OdooRecord : Type where
  Id : Int
  Name : String
  Street : String
  City : String
deriving DecidableEq, Repr

/-- One entry of the computed-field catalog: the `compute` lambda and
the `depends` list. -/
structure ComputedFieldSpec : Type where
  compute : OdooRecord → String
  depends : List String

/-- Embedding of `create_computed_fields()` from
`Scripts/odoo_module_sample.py`: a fixed two-entry dict.  The Python
f-strings become string concatenation. -/
def create_computed_fields : List (String × ComputedFieldSpec) :=
  [("display_name",
      { compute := fun record => record.Name ++ " (" ++ toString record.Id ++ ")",
        depends := ["name"] }),
   ("full_address",
      { compute := fun record => record.Street ++ ", " ++ record.City,
        depends := ["street", "city"] })]

/-- Correspondence between the lowercase Odoo field names used in the
`depends` lists and the capitalized record attributes read by the
`compute` lambdas (`name` is `record.Name`, and so on, following the
Odoo naming convention the module uses). -/
def fieldValue (record : OdooRecord) : String → Option PropValue
  | "id" => some (.int record.Id)
  | "name" => some (.str record.Name)
  | "street" => some (.str record.Street)
  | "city" => some (.str record.City)
  | _ => none

/-! # Claims about the filter engine and the workflow -/

/-- C1: `get_partner_domain_filter` on the empty mapping returns the
empty sequence; on a mapping with only `is_company ↦ true` it returns
exactly the one clause; on a mapping of `name ↦ Acme` and
`country ↦ US` — supplied in either key order — it returns the
`country_id` clause before the `name` clause, i.e. clauses follow the
fixed key-check order `is_company`, `country`, `name`, not the order of
the criteria mapping. -/
theorem c1_get_partner_domain_filter_examples :
    get_partner_domain_filter ([] : List (String × Bool)) = [] ∧
    get_partner_domain_filter [("is_company", true)] =
      [("is_company", "=", true)] ∧
    get_partner_domain_filter [("name", "Acme"), ("country", "US")] =
      [("country_id", "=", "US"), ("name", "ilike", "Acme")] ∧
    get_partner_domain_filter [("country", "US"), ("name", "Acme")] =
      [("country_id", "=", "US"), ("name", "ilike", "Acme")] :=
  ⟨rfl, rfl, rfl, rfl⟩

/-- C2: `partner_approval_workflow` maps each of the three table actions
to success with its mapped state (`approve ↦ approved`,
`reject ↦ rejected`, `review ↦ under_review`), and any action outside
the table — for instance `cancel` — to `success = false` with
`new_state = none`. -/
theorem c2_partner_approval_workflow_table {ε π : Type} (env : ε) (pid : π)
    (action : String) (hmiss : action ∉ ["approve", "reject", "review"]) :
    (partner_approval_workflow env pid "approve").success = true ∧
    (partner_approval_workflow env pid "approve").new_state = some "approved" ∧
    (partner_approval_workflow env pid "reject").success = true ∧
    (partner_approval_workflow env pid "reject").new_state = some "rejected" ∧
    (partner_approval_workflow env pid "review").success = true ∧
    (partner_approval_workflow env pid "review").new_state = some "under_review" ∧
    (partner_approval_workflow env pid "cancel").success = false ∧
    (partner_approval_workflow env pid "cancel").new_state = none ∧
    (partner_approval_workflow env pid action).success = false ∧
    (partner_approval_workflow env pid action).new_state = none := by
  simp only [List.mem_cons, List.not_mem_nil, or_false, not_or] at hmiss
  obtain ⟨ha, hr, hv⟩ := hmiss
  have ba : (action == "approve") = false := beq_eq_false_iff_ne.mpr ha
  have br : (action == "reject") = false := beq_eq_false_iff_ne.mpr hr
  have bv : (action == "review") = false := beq_eq_false_iff_ne.mpr hv
  refine ⟨rfl, rfl, rfl, rfl, rfl, rfl, rfl, rfl, ?_, ?_⟩ <;>
    simp [partner_approval_workflow, List.lookup, ba, br, bv]

/-- Witness for C2 at a concrete out-of-table action. -/
theorem c2_partner_approval_workflow_table_witness :
    "cancel" ∉ ["approve", "reject", "review"] ∧
    (partner_approval_workflow () (3 : Nat) "cancel").success = false := by
  refine ⟨by decide, ?_⟩
  exact (c2_partner_approval_workflow_table () (3 : Nat) "cancel"
    (by decide)).2.2.2.2.2.2.2.2.1

/-- C8: the workflow resolver is a stateless classifier — the
`new_state` and `success` components of its result depend only on the
action token, not on the environment value or the partner id (and, the
function being pure, not on any history of prior calls). -/
theorem c8_workflow_stateless {e1T e2T p1T p2T : Type} (e1 : e1T) (e2 : e2T)
    (p1 : p1T) (p2 : p2T) (action : String) :
    (partner_approval_workflow e1 p1 action).new_state =
      (partner_approval_workflow e2 p2 action).new_state ∧
    (partner_approval_workflow e1 p1 action).success =
      (partner_approval_workflow e2 p2 action).success :=
  ⟨rfl, rfl⟩

/-- C6: `create_computed_fields` publishes exactly the two fields
`display_name` (declared dependencies `name`) and `full_address`
(declared dependencies `street`, `city`), and no others. -/
theorem c6_computed_fields_catalog :
    create_computed_fields.map Prod.fst = ["display_name", "full_address"] ∧
    (create_computed_fields.lookup "display_name").map ComputedFieldSpec.depends =
      some ["name"] ∧
    (create_computed_fields.lookup "full_address").map ComputedFieldSpec.depends =
      some ["street", "city"] :=
  ⟨rfl, rfl, rfl⟩

/-- C7: `get_partner_domain_filter` silently ignores keys other than
`is_company`, `country` and `name`: its output only depends on the
lookups of those three keys (so two criteria mappings agreeing there —
one possibly holding extra, unrecognized keys — give equal outputs, and
no error is possible since the function is total), and every clause in
the output is built from one of the three recognized keys. -/
theorem c7_unrecognized_keys_ignored {α : Type}
    (criteria extended : List (String × α))
    (h1 : extended.lookup "is_company" = criteria.lookup "is_company")
    (h2 : extended.lookup "country" = criteria.lookup "country")
    (h3 : extended.lookup "name" = criteria.lookup "name") :
    get_partner_domain_filter extended = get_partner_domain_filter criteria ∧
    ∀ c ∈ get_partner_domain_filter criteria,
      c.1 = "is_company" ∨ c.1 = "country_id" ∨ c.1 = "name" := by
  constructor
  · simp only [get_partner_domain_filter, h1, h2, h3]
  · intro c hc
    rcases hci : criteria.lookup "is_company" with _ | vi <;>
    rcases hcc : criteria.lookup "country" with _ | vc <;>
    rcases hcn : criteria.lookup "name" with _ | vn <;>
    simp only [get_partner_domain_filter, hci, hcc, hcn, List.nil_append,
      List.append_nil, List.mem_append, List.mem_singleton,
      List.not_mem_nil] at hc <;>
    rcases hc with (rfl | rfl) | rfl <;> simp

/-- Witness for C7: a criteria mapping with the extra key `unknown`
gives the same domain as one without it. -/
theorem c7_unrecognized_keys_ignored_witness :
    (List.lookup "is_company" [("unknown", "zz"), ("name", "Acme")] =
       List.lookup "is_company" [("name", "Acme")] ∧
     List.lookup "country" [("unknown", "zz"), ("name", "Acme")] =
       List.lookup "country" [("name", "Acme")] ∧
     List.lookup "name" [("unknown", "zz"), ("name", "Acme")] =
       List.lookup "name" [("name", "Acme")]) ∧
    get_partner_domain_filter [("unknown", "zz"), ("name", "Acme")] =
      get_partner_domain_filter [("name", "Acme")] :=
  ⟨⟨by decide, by decide, by decide⟩,
   (c7_unrecognized_keys_ignored [("name", "Acme")]
      [("unknown", "zz"), ("name", "Acme")]
      (by decide) (by decide) (by decide)).1⟩

/-- C3 fails on the code: the `display_name` entry of
`create_computed_fields` declares dependencies `["name"]` but its
compute lambda also reads `record.Id`, so two records that agree on
every declared dependency can still get different computed values. -/
theorem c3_counterexample :
    ¬ ∀ name spec, (name, spec) ∈ create_computed_fields →
        ∀ r1 r2 : OdooRecord,
          (∀ f ∈ spec.depends, fieldValue r1 f = fieldValue r2 f) →
          spec.compute r1 = spec.compute r2 := by
  intro h
  have hmem : ("display_name",
      ({ compute := fun record => record.Name ++ " (" ++ toString record.Id ++ ")",
         depends := ["name"] } : ComputedFieldSpec)) ∈ create_computed_fields :=
    List.mem_cons_self _ _
  have := h _ _ hmem ⟨1, "Acme", "Main St", "Springfield"⟩
    ⟨2, "Acme", "Main St", "Springfield"⟩ (by decide)
  exact absurd this (by decide)

/-- C3 amended: `full_address` is a pure function of its declared
dependencies `{street, city}`, but `display_name` is a pure function of
`{id, name}` — its declared dependency `name` plus the undeclared field
`id`. -/
theorem c3_amended_dependency_purity (r1 r2 r3 r4 : OdooRecord)
    (hfa_dep : ∀ f ∈ (["street", "city"] : List String),
       fieldValue r1 f = fieldValue r2 f)
    (hdn_dep : ∀ f ∈ (["id", "name"] : List String),
       fieldValue r3 f = fieldValue r4 f) :
    ∀ spec ∈ create_computed_fields,
      (spec.1 = "full_address" → spec.2.compute r1 = spec.2.compute r2) ∧
      (spec.1 = "display_name" → spec.2.compute r3 = spec.2.compute r4) := by
  intro spec hspec
  have hs := hfa_dep "street" (by simp)
  have hc := hfa_dep "city" (by simp)
  have hid := hdn_dep "id" (by simp)
  have hn := hdn_dep "name" (by simp)
  simp only [fieldValue, Option.some.injEq, PropValue.str.injEq,
    PropValue.int.injEq] at hs hc hid hn
  simp only [create_computed_fields, List.mem_cons, List.not_mem_nil,
    or_false] at hspec
  rcases hspec with rfl | rfl
  · exact ⟨fun hco => absurd hco (by decide), fun _ => by simp [hid, hn]⟩
  · exact ⟨fun _ => by simp [hs, hc], fun hco => absurd hco (by decide)⟩

/-- Witness for C3 amended: `full_address` ignores a change of name and
id when street and city agree; `display_name` ignores a change of street
and city when name and id agree. -/
theorem c3_amended_dependency_purity_witness :
    (∀ f ∈ (["street", "city"] : List String),
       fieldValue ⟨1, "A", "Main St", "Springfield"⟩ f =
       fieldValue ⟨2, "B", "Main St", "Springfield"⟩ f) ∧
    (∀ f ∈ (["id", "name"] : List String),
       fieldValue ⟨7, "N", "X", "Y"⟩ f = fieldValue ⟨7, "N", "Z", "W"⟩ f) ∧
    ∀ spec ∈ create_computed_fields,
      (spec.1 = "full_address" →
        spec.2.compute ⟨1, "A", "Main St", "Springfield"⟩ =
        spec.2.compute ⟨2, "B", "Main St", "Springfield"⟩) ∧
      (spec.1 = "display_name" →
        spec.2.compute ⟨7, "N", "X", "Y"⟩ = spec.2.compute ⟨7, "N", "Z", "W"⟩) :=
  ⟨by decide, by decide,
   c3_amended_dependency_purity ⟨1, "A", "Main St", "Springfield"⟩
     ⟨2, "B", "Main St", "Springfield"⟩ ⟨7, "N", "X", "Y"⟩ ⟨7, "N", "Z", "W"⟩
     (by decide) (by decide)⟩

/-! ## Object bridge: Python attribute access on host objects -/

/-- A bridged host object as seen from the script side: its attribute
dictionary, an insertion-ordered association list of property names to
values (the shape of `MockDotNetObject` in `Scripts/sample_test.py`). -/
abbrev PyObject : Type := List (String × PropValue)

/-- Reading a property through the bridge: Python attribute access
`obj.Name`; `none` models the `AttributeError` on a missing name. -/
def readProperty (obj : PyObject) (name : String) : Option PropValue :=
  obj.lookup name

/-- Writing a property through the bridge: Python attribute assignment
`obj.Name = v`, which replaces the value of an existing attribute in
place and appends a fresh attribute otherwise. -/
def writeProperty : PyObject → String → PropValue → PyObject
  | [], name, v => [(name, v)]
  | kv :: rest, name, v =>
    if kv.1 == name then (kv.1, v) :: rest
    else kv :: writeProperty rest name v

/-- Property names of a host object, in declaration order. -/
def propNames (obj : PyObject) : List String := obj.map Prod.fst

/-- Property names `MockDotNetObject.__init__` declares
(`Scripts/sample_test.py`); all four are plain mutable attributes. -/
def mockDeclaredProperties : List String :=
  ["Message", "Counter", "Timestamp", "IsProcessed"]

/-- Attribute dictionary built by `MockDotNetObject.__init__`
(`Scripts/sample_test.py`), with the construction-time timestamp passed
in as `t0`. -/
def mockDotNetObject (t0 : Nat) : PyObject :=
  [("Message", PropValue.str "Original from .NET"),
   ("Counter", PropValue.int 0),
   ("Timestamp", PropValue.time t0),
   ("IsProcessed", PropValue.bool false)]

/-- Embedding of `process_dotnet_object(dotnet_obj)` from
`Scripts/sample.py` (identical in `Scripts/sample_test.py` up to the
mocked console): the first console line reads `Message`, `Counter` and
`IsProcessed`; the four assignments write `Message`, `Counter`,
`Timestamp` and `IsProcessed`; the second console line reads the same
three properties again; the return value is the final `Message`.  The
nondeterministic `DateTime.Now` is passed in as `now`. -/
def process_dotnet_object (now : PropValue) (dotnet_obj : PyObject) :
    Option (PropValue × PyObject) := do
  let _ ← readProperty dotnet_obj "Message"
  let _ ← readProperty dotnet_obj "Counter"
  let _ ← readProperty dotnet_obj "IsProcessed"
  let dotnet_obj := writeProperty dotnet_obj "Message" (.str "Modified by Python")
  let dotnet_obj := writeProperty dotnet_obj "Counter" (.int 42)
  let dotnet_obj := writeProperty dotnet_obj "Timestamp" now
  let dotnet_obj := writeProperty dotnet_obj "IsProcessed" (.bool true)
  let _ ← readProperty dotnet_obj "Message"
  let _ ← readProperty dotnet_obj "Counter"
  let _ ← readProperty dotnet_obj "IsProcessed"
  let ret ← readProperty dotnet_obj "Message"
  return (ret, dotnet_obj)

/-! ### Bridge lemmas -/

/-- Writing a property and reading it back yields the written value. -/
theorem readProperty_writeProperty_self (obj : PyObject) (name : String)
    (v : PropValue) :
    readProperty (writeProperty obj name v) name = some v := by
  induction obj with
  | nil => simp [readProperty, writeProperty, List.lookup]
  | cons kv rest ih =>
    by_cases h : kv.1 = name
    · subst h
      simp [readProperty, writeProperty, List.lookup]
    · have hb : (kv.1 == name) = false := beq_eq_false_iff_ne.mpr h
      have hb' : (name == kv.1) = false :=
        beq_eq_false_iff_ne.mpr (fun e => h e.symm)
      simpa [readProperty, writeProperty, hb, hb', List.lookup] using ih

/-- Writing one property leaves every other property unchanged. -/
theorem readProperty_writeProperty_ne (obj : PyObject) (n m : String)
    (v : PropValue) (h : n ≠ m) :
    readProperty (writeProperty obj m v) n = readProperty obj n := by
  induction obj with
  | nil => simp [readProperty, writeProperty, List.lookup,
      beq_eq_false_iff_ne.mpr h]
  | cons kv rest ih =>
    by_cases hk : kv.1 = m
    · subst hk
      have hb : (n == kv.1) = false := beq_eq_false_iff_ne.mpr h
      simp [readProperty, writeProperty, List.lookup, hb]
    · have hb : (kv.1 == m) = false := beq_eq_false_iff_ne.mpr hk
      by_cases hn : n = kv.1
      · subst hn
        simp [readProperty, writeProperty, List.lookup, hb]
      · have hb' : (n == kv.1) = false := beq_eq_false_iff_ne.mpr hn
        simpa [readProperty, writeProperty, List.lookup, hb, hb'] using ih

/-- A property present before a write is present after it. -/
theorem readProperty_writeProperty_isSome (obj : PyObject) (n m : String)
    (v : PropValue) (h : (readProperty obj n).isSome) :
    (readProperty (writeProperty obj m v) n).isSome := by
  by_cases e : n = m
  · subst e
    simp [readProperty_writeProperty_self]
  · rw [readProperty_writeProperty_ne obj n m v e]
    exact h

/-- Writing to a property that already exists does not change the set
(or order) of property names of the host object. -/
theorem propNames_writeProperty_of_isSome (obj : PyObject) (name : String)
    (v : PropValue) (h : (readProperty obj name).isSome) :
    propNames (writeProperty obj name v) = propNames obj := by
  induction obj with
  | nil => simp [readProperty, List.lookup] at h
  | cons kv rest ih =>
    by_cases hk : kv.1 = name
    · subst hk
      simp [writeProperty, propNames]
    · have hb : (kv.1 == name) = false := beq_eq_false_iff_ne.mpr hk
      have hb' : (name == kv.1) = false :=
        beq_eq_false_iff_ne.mpr (fun e => hk e.symm)
      simp only [readProperty, List.lookup, hb'] at h
      simp only [writeProperty, hb, if_neg, Bool.false_eq_true,
        not_false_eq_true, propNames, List.map_cons]
      exact congrArg _ (ih h)

/-- Evaluation of `process_dotnet_object` on any object exposing the
three properties the console lines read: it succeeds and leaves the
object produced by the four in-order writes. -/
theorem process_dotnet_object_eq (now : PropValue) (obj : PyObject)
    (h1 : (readProperty obj "Message").isSome)
    (h2 : (readProperty obj "Counter").isSome)
    (h3 : (readProperty obj "IsProcessed").isSome) :
    process_dotnet_object now obj =
      some (PropValue.str "Modified by Python",
        writeProperty (writeProperty (writeProperty (writeProperty obj
          "Message" (PropValue.str "Modified by Python"))
          "Counter" (PropValue.int 42)) "Timestamp" now)
          "IsProcessed" (PropValue.bool true)) := by
  obtain ⟨m, hm⟩ := Option.isSome_iff_exists.mp h1
  obtain ⟨c, hc⟩ := Option.isSome_iff_exists.mp h2
  obtain ⟨p, hp⟩ := Option.isSome_iff_exists.mp h3
  have e1 : readProperty (writeProperty (writeProperty (writeProperty
      (writeProperty obj "Message" (PropValue.str "Modified by Python"))
      "Counter" (PropValue.int 42)) "Timestamp" now)
      "IsProcessed" (PropValue.bool true)) "Message" =
      some (PropValue.str "Modified by Python") := by
    rw [readProperty_writeProperty_ne _ _ _ _ (by decide),
        readProperty_writeProperty_ne _ _ _ _ (by decide),
        readProperty_writeProperty_ne _ _ _ _ (by decide),
        readProperty_writeProperty_self]
  have e2 : readProperty (writeProperty (writeProperty (writeProperty
      (writeProperty obj "Message" (PropValue.str "Modified by Python"))
      "Counter" (PropValue.int 42)) "Timestamp" now)
      "IsProcessed" (PropValue.bool true)) "Counter" =
      some (PropValue.int 42) := by
    rw [readProperty_writeProperty_ne _ _ _ _ (by decide),
        readProperty_writeProperty_ne _ _ _ _ (by decide),
        readProperty_writeProperty_self]
  have e3 : readProperty (writeProperty (writeProperty (writeProperty
      (writeProperty obj "Message" (PropValue.str "Modified by Python"))
      "Counter" (PropValue.int 42)) "Timestamp" now)
      "IsProcessed" (PropValue.bool true)) "IsProcessed" =
      some (PropValue.bool true) := by
    rw [readProperty_writeProperty_self]
  simp [process_dotnet_object, hm, hc, hp, e1, e2, e3]

/-! # Claims about the object bridge -/

/-- C4: on a handle whose object initially has `Message = "Original"`,
`Counter = 0` and `IsProcessed = false`, writing `42` to `Counter`
through the bridge makes reading `Counter` return `42` while reading
`Message` still returns the unchanged `"Original"`. -/
theorem c4_write_counter_frames_message :
    readProperty (writeProperty
      [("Message", PropValue.str "Original"), ("Counter", PropValue.int 0),
       ("IsProcessed", PropValue.bool false)] "Counter" (PropValue.int 42))
      "Counter" = some (PropValue.int 42) ∧
    readProperty (writeProperty
      [("Message", PropValue.str "Original"), ("Counter", PropValue.int 0),
       ("IsProcessed", PropValue.bool false)] "Counter" (PropValue.int 42))
      "Message" = some (PropValue.str "Original") :=
  ⟨rfl, rfl⟩

/-- C5: for every declared mutable property `p` of a handle `h` and
every value `v`, writing `v` to `p` through the bridge and then reading
`p` back returns exactly `v` (write-then-read round-trip law). -/
theorem c5_write_read_roundtrip (h : PyObject) (p : String) (v : PropValue)
    (hp : p ∈ mockDeclaredProperties) :
    readProperty (writeProperty h p v) p = some v :=
  readProperty_writeProperty_self h p v

/-- Witness for C5: writing `Counter = 42` on the mock object and
reading it back yields exactly `42`. -/
theorem c5_write_read_roundtrip_witness :
    "Counter" ∈ mockDeclaredProperties ∧
    readProperty (writeProperty (mockDotNetObject 0) "Counter"
      (PropValue.int 42)) "Counter" = some (PropValue.int 42) :=
  ⟨by decide,
   c5_write_read_roundtrip (mockDotNetObject 0) "Counter" (PropValue.int 42)
     (by decide)⟩

/-- C9: every property `process_dotnet_object` writes already exists on
an object shaped like `MockDotNetObject`, so across all of its bridge
writes the property-name list of the host object is unchanged — the
bridge run never creates a new property. -/
theorem c9_no_new_properties (now : PropValue) (obj : PyObject)
    (h1 : (readProperty obj "Message").isSome)
    (h2 : (readProperty obj "Counter").isSome)
    (h3 : (readProperty obj "Timestamp").isSome)
    (h4 : (readProperty obj "IsProcessed").isSome) :
    ∃ res, process_dotnet_object now obj = some res ∧
      propNames res.2 = propNames obj := by
  have p1 : (readProperty (writeProperty obj "Message"
      (PropValue.str "Modified by Python")) "Counter").isSome :=
    readProperty_writeProperty_isSome _ _ _ _ h2
  have p2 : (readProperty (writeProperty (writeProperty obj "Message"
      (PropValue.str "Modified by Python")) "Counter" (PropValue.int 42))
      "Timestamp").isSome :=
    readProperty_writeProperty_isSome _ _ _ _
      (readProperty_writeProperty_isSome _ _ _ _ h3)
  have p3 : (readProperty (writeProperty (writeProperty (writeProperty obj
      "Message" (PropValue.str "Modified by Python")) "Counter"
      (PropValue.int 42)) "Timestamp" now) "IsProcessed").isSome :=
    readProperty_writeProperty_isSome _ _ _ _
      (readProperty_writeProperty_isSome _ _ _ _
        (readProperty_writeProperty_isSome _ _ _ _ h4))
  refine ⟨_, process_dotnet_object_eq now obj h1 h2 h4, ?_⟩
  rw [propNames_writeProperty_of_isSome _ _ _ p3,
      propNames_writeProperty_of_isSome _ _ _ p2,
      propNames_writeProperty_of_isSome _ _ _ p1,
      propNames_writeProperty_of_isSome _ _ _ h1]

/-- Witness for C9 on the mock object. -/
theorem c9_no_new_properties_witness :
    ((readProperty (mockDotNetObject 0) "Message").isSome ∧
     (readProperty (mockDotNetObject 0) "Counter").isSome ∧
     (readProperty (mockDotNetObject 0) "Timestamp").isSome ∧
     (readProperty (mockDotNetObject 0) "IsProcessed").isSome) ∧
    ∃ res, process_dotnet_object (PropValue.time 5) (mockDotNetObject 0) =
        some res ∧
      propNames res.2 = propNames (mockDotNetObject 0) :=
  ⟨⟨by decide, by decide, by decide, by decide⟩,
   c9_no_new_properties (PropValue.time 5) (mockDotNetObject 0)
     (by decide) (by decide) (by decide) (by decide)⟩

/-- C10: on any object exposing the `Message`, `Counter`, `Timestamp`
and `IsProcessed` properties, whatever their initial values,
`process_dotnet_object` returns `"Modified by Python"` and leaves the
object with `Message = "Modified by Python"`, `Counter = 42` and
`IsProcessed = true`. -/
theorem c10_process_dotnet_object_result (now : PropValue) (obj : PyObject)
    (h1 : (readProperty obj "Message").isSome)
    (h2 : (readProperty obj "Counter").isSome)
    (h3 : (readProperty obj "Timestamp").isSome)
    (h4 : (readProperty obj "IsProcessed").isSome) :
    ∃ res, process_dotnet_object now obj = some res ∧
      res.1 = PropValue.str "Modified by Python" ∧
      readProperty res.2 "Message" = some (PropValue.str "Modified by Python") ∧
      readProperty res.2 "Counter" = some (PropValue.int 42) ∧
      readProperty res.2 "IsProcessed" = some (PropValue.bool true) := by
  refine ⟨_, process_dotnet_object_eq now obj h1 h2 h4, rfl, ?_, ?_, ?_⟩
  · rw [readProperty_writeProperty_ne _ _ _ _ (by decide),
        readProperty_writeProperty_ne _ _ _ _ (by decide),
        readProperty_writeProperty_ne _ _ _ _ (by decide),
        readProperty_writeProperty_self]
  · rw [readProperty_writeProperty_ne _ _ _ _ (by decide),
        readProperty_writeProperty_ne _ _ _ _ (by decide),
        readProperty_writeProperty_self]
  · rw [readProperty_writeProperty_self]

/-- Witness for C10 on the mock object. -/
theorem c10_process_dotnet_object_result_witness :
    ((readProperty (mockDotNetObject 7) "Message").isSome ∧
     (readProperty (mockDotNetObject 7) "Counter").isSome ∧
     (readProperty (mockDotNetObject 7) "Timestamp").isSome ∧
     (readProperty (mockDotNetObject 7) "IsProcessed").isSome) ∧
    ∃ res, process_dotnet_object (PropValue.time 9) (mockDotNetObject 7) =
        some res ∧
      res.1 = PropValue.str "Modified by Python" ∧
      readProperty res.2 "Message" = some (PropValue.str "Modified by Python") ∧
      readProperty res.2 "Counter" = some (PropValue.int 42) ∧
      readProperty res.2 "IsProcessed" = some (PropValue.bool true) :=
  ⟨⟨by decide, by decide, by decide, by decide⟩,
   c10_process_dotnet_object_result (PropValue.time 9) (mockDotNetObject 7)
     (by decide) (by decide) (by decide) (by decide)⟩
